import Mathlib

/-!
Shallow embedding of `src/avscan-simple-mock.py` (the `/scan` handler and its
connectivity helper).  The handler is modelled as a deterministic function of
the inbound request together with an explicit environment oracle supplying the
results of every effectful step (socket probe, random draws, outbound POST
outcomes, and an optional exception raised by the introspection/logging code
at the top of the handler body).  Besides the HTTP response the model returns
a trace of the observable side effects (socket probes, the body read, sleeps,
random draws, outbound POSTs, backoff sleeps), so ordering and counting
properties can be stated.

Strings manipulated character-wise by the code (the target URL) are modelled
as `List Char`; opaque pass-through strings (header values, response bodies)
are `String`.  The float threshold `0.01` is the rational `mkRat 1 100`.
-/

namespace AVScanMock

/-- An HTTP response as produced by `Response(body, status, content_type)`. -/
structure HttpResponse where
  status : Nat
  body : String
  contentType : String
  deriving DecidableEq, Repr

/-- Result of `sock.connect_ex((host, port))`: either an error code (0 means
success) or an exception (e.g. `socket.gaierror` on name-resolution failure,
`OverflowError` on an out-of-range port). -/
inductive SockResult where
  | code (r : Int)
  | exn (msg : String)
  deriving DecidableEq, Repr

/-- Outcome of one `requests.post` call: an HTTP response with a status code,
a `requests.exceptions.Timeout`, a `requests.exceptions.ConnectionError`, or
any other exception (caught only by the `except Exception` at line 261). -/
inductive AttemptOutcome where
  | response (status : Nat)
  | timeout
  | connError (detail : String)
  | otherExn (msg : String)
  deriving DecidableEq, Repr

/-- A Python exception reaching the handler's outermost `try`:
`werkzeug.exceptions.BadRequest` (caught at line 266) or any other
`Exception` (caught at line 270).  The payload is `str(e)`. -/
inductive PyExn where
  | badRequest (msg : String)
  | other (msg : String)
  deriving DecidableEq, Repr

/-- Observable side effects of the handler, in execution order. -/
inductive Event where
  /-- Models `sock.settimeout(timeoutSecs); sock.connect_ex((host, port))`. -/
  | sockProbe (host : List Char) (port : Int) (timeoutSecs : Nat)
  /-- Marks that the request body is read in full (the `request.data` / `get_data()` /
  `stream.read()` fallback chain, collapsed: all methods read the same body) -/
  | readBody
  /-- Models `time.sleep(scan_time)` for the simulated scan. -/
  | scanSleep (d : ℚ)
  /-- Models `random.random()` returning `r`, compared against 0.01. -/
  | draw (r : ℚ)
  /-- Models `requests.post(url, data=body, headers=headers, timeout=timeoutSecs)`. -/
  | post (url : List Char) (headers : List (String × String)) (body : List Nat)
      (timeoutSecs : Nat)
  /-- Models `time.sleep(retry_delay)` between failed callback attempts. -/
  | backoffSleep (d : Nat)
  deriving DecidableEq, Repr

/-- The inbound request: the four headers read by the handler (each `none`
when absent) and the payload bytes.  `readError = some e` models the case
where reading the body raises an exception with `str = e` (caught at
line 143). -/
structure ScanRequest where
  targetUrl : Option (List Char)
  scanReferenceId : Option String
  originalFilename : Option String
  originalContentType : Option String
  body : List Nat
  readError : Option String
  deriving Repr

/-- The environment: results of every effectful call the handler makes.
`connect h p` is the result of the socket probe to `(h, p)`; `scanDelay` is
the value drawn by `random.uniform(0.5, 2.0)`; `verdictDraw` the value drawn
by `random.random()`; `attempt i` the outcome of the `i`-th (0-based)
`requests.post`; `topLevelFault` an exception raised by the request
introspection/logging code at lines 82-91, before any of the handler's own
logic runs (`none` in a normal run). -/
structure Oracle where
  connect : List Char → Int → SockResult
  scanDelay : ℚ
  verdictDraw : ℚ
  attempt : Nat → AttemptOutcome
  topLevelFault : Option PyExn

/-- Line 205: `max_retries = 3`. -/
def max_retries : Nat := 3

/-- Python's `str.split(sep)` for a single-character separator:
`splitOnChar c s` splits `s` at every occurrence of `c`.  Matches Python:
the empty string yields `[[]]`, a lone separator yields `[[], []]`. -/
def splitOnChar (c : Char) : List Char → List (List Char)
  | [] => [[]]
  | x :: xs =>
    let r := splitOnChar c xs
    if x = c then [] :: r
    else
      match r with
      | [] => [[x]]
      | y :: ys => (x :: y) :: ys

/-- Digits of a decimal numeral to its value; `none` if empty or any
character is not a digit. -/
def decDigits? (s : List Char) : Option Nat :=
  if s.isEmpty then none
  else
    s.foldl (fun acc c =>
      match acc with
      | none => none
      | some n => if c.isDigit then some (n * 10 + (c.toNat - '0'.toNat)) else none)
      (some 0)

/-- Python's `int(s)` on a decimal string: optional sign then digits; `none`
models the `ValueError` raised otherwise.  (Python additionally strips
whitespace and allows `_` separators; those corner cases are not modelled.) -/
def pyInt? : List Char → Option Int
  | '-' :: rest => (decDigits? rest).map (fun n => -(n : Int))
  | '+' :: rest => (decDigits? rest).map (fun n => (n : Int))
  | s => (decDigits? s).map (fun n => (n : Int))

/-- Lines 33-38: strip a leading `http://` or `https://` scheme. -/
def stripScheme (target_url : List Char) : List Char :=
  if "http://".data.isPrefixOf target_url then target_url.drop 7
  else if "https://".data.isPrefixOf target_url then target_url.drop 8
  else target_url

/-- Lines 41-44: keep everything before the first `/`. -/
def hostPortPart (url_part : List Char) : List Char :=
  if url_part.contains '/' then (splitOnChar '/' url_part).headD []
  else url_part

/-- Lines 33-51: extract host and port from the URL.  `none` models the
paths on which the Python code raises inside the `try` (unpacking
`host, port = host_port.split(':')` with a number of parts other than two,
or `int(port)` on a non-integer), which the `except` at line 68 converts to
`False`. -/
def parseHostPort (target_url : List Char) : Option (List Char × Int) :=
  let url_part := stripScheme target_url
  let host_port := hostPortPart url_part
  if host_port.contains ':' then
    match splitOnChar ':' host_port with
    | [host, portStr] =>
      match pyInt? portStr with
      | some p => some (host, p)
      | none => none
    | _ => none
  else
    some (host_port,
      if "http://".data.isPrefixOf target_url then 80 else 443)

/-- Lines 29-70, `test_callback_connectivity`: parse the URL, open a TCP
socket with a 5-second timeout, and return whether `connect_ex` returned 0.
Any exception (parse failure, resolution failure, ...) yields `False`.
Also returns the trace of socket probes performed. -/
def test_callback_connectivity (connect : List Char → Int → SockResult)
    (target_url : List Char) : Bool × List Event :=
  match parseHostPort target_url with
  | none => (false, [])
  | some (host, port) =>
    match connect host port with
    | SockResult.code r => (r == 0, [Event.sockProbe host port 5])
    | SockResult.exn _ => (false, [Event.sockProbe host port 5])

/-- Lines 188-196: the outbound callback headers. -/
def callback_headers (scan_ref_id original_filename original_content_type : String)
    (file_size : Nat) : List (String × String) :=
  [("Content-Type", "application/octet-stream"),
   ("scan-reference-id", scan_ref_id),
   ("scan-result", "CLEAN"),
   ("original-filename", original_filename),
   ("original-content-type", original_content_type),
   ("Content-Length", toString file_size),
   ("User-Agent", "AVScan-Mock/1.0")]

/-- Lines 208-259: the retry loop `for attempt in range(max_retries)`.
`fuel` is the number of loop iterations left (`max_retries - attempt`), so
`fuel = 1` exactly when `attempt == max_retries - 1` (the last attempt, on
which failures are surfaced instead of retried).  `none` is the (unreachable
for `fuel > 0` at entry) case of the loop finishing without `return`, after
which the Python function falls off the end and returns `None`. -/
def callback_loop (A : Nat → AttemptOutcome) (target_url : List Char)
    (hdrs : List (String × String)) (file_content : List Nat) (file_size : Nat)
    (attempt fuel retry_delay : Nat) : Option HttpResponse × List Event :=
  match fuel with
  | 0 => (none, [])
  | fuel' + 1 =>
    let ev := Event.post target_url hdrs file_content 300
    match A attempt with
    | AttemptOutcome.response st =>
      if st = 200 then
        (some ⟨200, "SUCCESS: File scanned and forwarded (" ++ toString file_size
              ++ " bytes)", "text/plain"⟩, [ev])
      else if fuel' = 0 then
        (some ⟨500, "Callback failed after " ++ toString max_retries
              ++ " attempts: HTTP " ++ toString st, "text/plain"⟩, [ev])
      else
        let rest := callback_loop A target_url hdrs file_content file_size
          (attempt + 1) fuel' (retry_delay * 2)
        (rest.fst, ev :: Event.backoffSleep retry_delay :: rest.snd)
    | AttemptOutcome.timeout =>
      if fuel' = 0 then
        (some ⟨500, "Callback timeout after retries", "text/plain"⟩, [ev])
      else
        let rest := callback_loop A target_url hdrs file_content file_size
          (attempt + 1) fuel' (retry_delay * 2)
        (rest.fst, ev :: Event.backoffSleep retry_delay :: rest.snd)
    | AttemptOutcome.connError d =>
      if fuel' = 0 then
        (some ⟨500, "Callback connection error after retries: " ++ d,
              "text/plain"⟩, [ev])
      else
        let rest := callback_loop A target_url hdrs file_content file_size
          (attempt + 1) fuel' (retry_delay * 2)
        (rest.fst, ev :: Event.backoffSleep retry_delay :: rest.snd)
    | AttemptOutcome.otherExn m =>
      (some ⟨500, "Callback error: " ++ m, "text/plain"⟩, [ev])

/-- Lines 72-274, `scan_file`: the `/scan` handler.  Returns the response
(`none` only on the unreachable fall-off-the-loop path) and the trace of
side effects. -/
def scan_file (o : Oracle) (req : ScanRequest) : Option HttpResponse × List Event :=
  match o.topLevelFault with
  | some (PyExn.badRequest m) =>
    (some ⟨400, "Bad request: " ++ m, "text/plain"⟩, [])
  | some (PyExn.other m) =>
    (some ⟨500, "Internal server error: " ++ m, "text/plain"⟩, [])
  | none =>
    -- lines 94-97: `if not target_url` (absent or empty string)
    match req.targetUrl with
    | none => (some ⟨400, "Missing targetUrl header", "text/plain"⟩, [])
    | some target_url =>
      if target_url = [] then
        (some ⟨400, "Missing targetUrl header", "text/plain"⟩, [])
      else
        -- lines 99-101: optional headers with defaults
        let scan_ref_id := req.scanReferenceId.getD ""
        let original_filename := req.originalFilename.getD "unknown"
        let original_content_type :=
          req.originalContentType.getD "application/octet-stream"
        -- lines 108-113: connectivity test BEFORE reading the body
        let probe := test_callback_connectivity o.connect target_url
        if probe.fst then
          -- lines 115-147: read the body (fallback chain collapsed)
          match req.readError with
          | some e =>
            (some ⟨400, "Error reading request body: " ++ e, "text/plain"⟩,
             probe.snd ++ [Event.readBody])
          | none =>
            let file_content := req.body
            -- line 149: `if not file_content` (line 156's
            -- `if file_size == 0` check is unreachable behind it)
            if file_content.isEmpty then
              (some ⟨400, "No file content received", "text/plain"⟩,
               probe.snd ++ [Event.readBody])
            else
              let file_size := file_content.length
              -- lines 173-181: scan delay, then verdict draw
              let tr1 := probe.snd ++
                [Event.readBody, Event.scanSleep o.scanDelay,
                 Event.draw o.verdictDraw]
              if o.verdictDraw < mkRat 1 100 then
                (some ⟨200, "INFECTED: Simulated virus detected", "text/plain"⟩,
                 tr1)
              else
                -- lines 186-259: callback delivery with retries
                let hdrs := callback_headers scan_ref_id original_filename
                  original_content_type file_size
                let res := callback_loop o.attempt target_url hdrs file_content
                  file_size 0 max_retries 1
                (res.fst, tr1 ++ res.snd)
        else
          (some ⟨500, "Cannot reach callback URL - check network configuration",
                 "text/plain"⟩, probe.snd)

/-- Whether an event is an outbound POST. -/
def isPost : Event → Bool
  | Event.post _ _ _ _ => true
  | _ => false

/-- Number of outbound POST attempts in a trace. -/
def postCount (tr : List Event) : Nat := tr.countP isPost

/-- The backoff sleep durations in a trace, in order. -/
def backoffs (tr : List Event) : List Nat :=
  tr.filterMap fun e => match e with
    | Event.backoffSleep d => some d
    | _ => none

/-- The `requests.post` failures that trigger a retry when attempts remain:
a non-200 status, a timeout, or a connection error (not an unexpected
exception, which aborts the loop). -/
def isRetryFailure : AttemptOutcome → Bool
  | AttemptOutcome.response st => st ≠ 200
  | AttemptOutcome.timeout => true
  | AttemptOutcome.connError _ => true
  | AttemptOutcome.otherExn _ => false

/-- The response the handler returns on the infected branch (line 181). -/
def infectedResponse : HttpResponse :=
  ⟨200, "INFECTED: Simulated virus detected", "text/plain"⟩

/-- The callback headers the handler builds for a given request: the
pass-through values (with their defaults from lines 99-101) and the payload
byte count. -/
def request_callback_headers (req : ScanRequest) : List (String × String) :=
  callback_headers (req.scanReferenceId.getD "")
    (req.originalFilename.getD "unknown")
    (req.originalContentType.getD "application/octet-stream")
    req.body.length

/-! ### Concrete sample inputs (used to instantiate the theorems) -/

/-- A sample callback URL, `http://h:1/cb`. -/
def demoUrl : List Char := "http://h:1/cb".data

/-- A sample well-formed request carrying the 5-byte payload `hello`. -/
def demoRequest : ScanRequest :=
  ⟨some demoUrl, some "ref-1", some "a.txt", some "text/plain",
   [104, 101, 108, 108, 111], none⟩

/-- The sample request with an empty payload. -/
def emptyBodyRequest : ScanRequest := { demoRequest with body := [] }

/-- The sample request without the `targetUrl` header. -/
def noTargetRequest : ScanRequest := { demoRequest with targetUrl := none }

/-- The sample request with a different payload (for content-independence). -/
def otherBodyRequest : ScanRequest := { demoRequest with body := [1, 2, 3] }

/-- An environment where the probe succeeds, the verdict draw is 1 (clean),
and every callback attempt returns 200. -/
def okOracle : Oracle where
  connect := fun _ _ => SockResult.code 0
  scanDelay := 1
  verdictDraw := 1
  attempt := fun _ => AttemptOutcome.response 200
  topLevelFault := none

/-- Same as `okOracle` but with a verdict draw of 0 (below 0.01: infected). -/
def infectedOracle : Oracle := { okOracle with verdictDraw := 0 }

/-- Same as `okOracle` but with every callback attempt answering 503. -/
def non200Oracle : Oracle := { okOracle with
  attempt := fun _ => AttemptOutcome.response 503 }

/-- Same as `okOracle` but with callback attempts answering 503, 503, then 200. -/
def thirdTimeLuckyOracle : Oracle := { okOracle with
  attempt := fun i => if i < 2 then AttemptOutcome.response 503
    else AttemptOutcome.response 200 }

/-- Same as `okOracle` but with a socket probe that always fails (error code 111,
connection refused). -/
def probeFailOracle : Oracle := { okOracle with
  connect := fun _ _ => SockResult.code 111 }

/-- Same as `okOracle` but with an exception injected in the handler's introspection
code, reaching the outermost `except Exception`. -/
def faultyOracle : Oracle := { okOracle with
  topLevelFault := some (PyExn.other "boom") }

/-! ### Helper lemmas about `test_callback_connectivity` -/

theorem connectivity_parse_none (c : List Char → Int → SockResult) (u : List Char)
    (h : parseHostPort u = none) : test_callback_connectivity c u = (false, []) := by
  simp [test_callback_connectivity, h]

theorem connectivity_snd_events (c : List Char → Int → SockResult) (u : List Char) :
    ∀ e ∈ (test_callback_connectivity c u).snd,
      ∃ h p, parseHostPort u = some (h, p) ∧ e = Event.sockProbe h p 5 := by
  intro e he
  unfold test_callback_connectivity at he
  cases hpu : parseHostPort u with
  | none => rw [hpu] at he; simp at he
  | some hp =>
    obtain ⟨h, p⟩ := hp
    rw [hpu] at he
    cases hc : c h p with
    | code r => simp [hc] at he; exact ⟨h, p, rfl, he⟩
    | exn m => simp [hc] at he; exact ⟨h, p, rfl, he⟩

/-! ### Helper lemmas about `callback_loop` -/

theorem success_body_ne_infected (n : Nat) :
    "SUCCESS: File scanned and forwarded (" ++ toString n ++ " bytes)" ≠
      "INFECTED: Simulated virus detected" := by
  intro h
  have hlen := congrArg String.length h
  simp only [String.length_append] at hlen
  have h1 : ("SUCCESS: File scanned and forwarded (" : String).length = 37 := rfl
  have h2 : (" bytes)" : String).length = 7 := rfl
  have h3 : ("INFECTED: Simulated virus detected" : String).length = 34 := rfl
  omega

/-- One retry-triggering failure with attempts left: the loop sleeps the
backoff, doubles it, and moves to the next attempt. -/
theorem callback_loop_retry_step (A : Nat → AttemptOutcome) (u : List Char)
    (hs : List (String × String)) (b : List Nat) (n a fuel' d : Nat)
    (hA : isRetryFailure (A a) = true) (hf : fuel' ≠ 0) :
    callback_loop A u hs b n a (fuel' + 1) d =
      ((callback_loop A u hs b n (a + 1) fuel' (d * 2)).fst,
       Event.post u hs b 300 :: Event.backoffSleep d ::
         (callback_loop A u hs b n (a + 1) fuel' (d * 2)).snd) := by
  cases hAa : A a with
  | response st =>
    rw [hAa] at hA
    simp only [isRetryFailure, decide_eq_true_eq] at hA
    simp [callback_loop, hAa, hA, hf]
  | timeout => simp [callback_loop, hAa, hf]
  | connError dd => simp [callback_loop, hAa, hf]
  | otherExn m => rw [hAa] at hA; simp [isRetryFailure] at hA

/-- Any case that does not retry (success, unexpected exception, or the last
attempt) returns a response after a single POST; the response is never the
infected-branch response. -/
theorem callback_loop_terminal (A : Nat → AttemptOutcome) (u : List Char)
    (hs : List (String × String)) (b : List Nat) (n a fuel' d : Nat)
    (h : isRetryFailure (A a) = false ∨ fuel' = 0) :
    ∃ r, callback_loop A u hs b n a (fuel' + 1) d =
        (some r, [Event.post u hs b 300]) ∧ r ≠ infectedResponse := by
  cases hAa : A a with
  | response st =>
    by_cases h200 : st = 200
    · refine ⟨⟨200, "SUCCESS: File scanned and forwarded (" ++ toString n
          ++ " bytes)", "text/plain"⟩, by simp [callback_loop, hAa, h200], ?_⟩
      simp only [infectedResponse, ne_eq, HttpResponse.mk.injEq]
      intro hcon
      exact success_body_ne_infected n hcon.2.1
    · have hf : fuel' = 0 := by
        rcases h with h | h
        · rw [hAa] at h; simp [isRetryFailure] at h; exact absurd h h200
        · exact h
      refine ⟨⟨500, "Callback failed after " ++ toString max_retries
          ++ " attempts: HTTP " ++ toString st, "text/plain"⟩,
          by simp [callback_loop, hAa, h200, hf], ?_⟩
      simp [infectedResponse, HttpResponse.mk.injEq]
  | timeout =>
    have hf : fuel' = 0 := by
      rcases h with h | h
      · rw [hAa] at h; simp [isRetryFailure] at h
      · exact h
    refine ⟨⟨500, "Callback timeout after retries", "text/plain"⟩,
        by simp [callback_loop, hAa, hf], ?_⟩
    simp [infectedResponse, HttpResponse.mk.injEq]
  | connError dd =>
    have hf : fuel' = 0 := by
      rcases h with h | h
      · rw [hAa] at h; simp [isRetryFailure] at h
      · exact h
    refine ⟨⟨500, "Callback connection error after retries: " ++ dd, "text/plain"⟩,
        by simp [callback_loop, hAa, hf], ?_⟩
    simp [infectedResponse, HttpResponse.mk.injEq]
  | otherExn m =>
    refine ⟨⟨500, "Callback error: " ++ m, "text/plain"⟩,
        by simp [callback_loop, hAa], ?_⟩
    simp [infectedResponse, HttpResponse.mk.injEq]

theorem retry_or_terminal {A : Nat → AttemptOutcome} {a fuel' : Nat}
    (h : ¬(isRetryFailure (A a) = true ∧ fuel' ≠ 0)) :
    isRetryFailure (A a) = false ∨ fuel' = 0 := by
  rcases Bool.eq_false_or_eq_true (isRetryFailure (A a)) with hA | hA
  · right; by_contra hf; exact h ⟨hA, hf⟩
  · exact Or.inl hA

theorem callback_loop_snd_events (A : Nat → AttemptOutcome) (u : List Char)
    (hs : List (String × String)) (b : List Nat) (n : Nat) :
    ∀ fuel a d, ∀ e ∈ (callback_loop A u hs b n a fuel d).snd,
      e = Event.post u hs b 300 ∨ ∃ dd, e = Event.backoffSleep dd := by
  intro fuel
  induction fuel with
  | zero => intro a d e he; simp [callback_loop] at he
  | succ fuel' ih =>
    intro a d e he
    by_cases hstep : isRetryFailure (A a) = true ∧ fuel' ≠ 0
    · rw [callback_loop_retry_step A u hs b n a fuel' d hstep.1 hstep.2] at he
      simp only [List.mem_cons] at he
      rcases he with he | he | he
      · exact Or.inl he
      · exact Or.inr ⟨d, he⟩
      · exact ih (a + 1) (d * 2) e he
    · obtain ⟨r, hr, -⟩ :=
        callback_loop_terminal A u hs b n a fuel' d (retry_or_terminal hstep)
      rw [hr] at he
      simp at he
      exact Or.inl he

theorem callback_loop_isSome (A : Nat → AttemptOutcome) (u : List Char)
    (hs : List (String × String)) (b : List Nat) (n : Nat) :
    ∀ fuel a d, fuel ≠ 0 →
      ((callback_loop A u hs b n a fuel d).fst).isSome = true := by
  intro fuel
  induction fuel with
  | zero => intro a d h; exact absurd rfl h
  | succ fuel' ih =>
    intro a d _
    by_cases hstep : isRetryFailure (A a) = true ∧ fuel' ≠ 0
    · rw [callback_loop_retry_step A u hs b n a fuel' d hstep.1 hstep.2]
      exact ih (a + 1) (d * 2) hstep.2
    · obtain ⟨r, hr, -⟩ :=
        callback_loop_terminal A u hs b n a fuel' d (retry_or_terminal hstep)
      rw [hr]
      rfl

theorem callback_loop_ne_infected (A : Nat → AttemptOutcome) (u : List Char)
    (hs : List (String × String)) (b : List Nat) (n : Nat) :
    ∀ fuel a d, (callback_loop A u hs b n a fuel d).fst ≠ some infectedResponse := by
  intro fuel
  induction fuel with
  | zero => intro a d; simp [callback_loop]
  | succ fuel' ih =>
    intro a d
    by_cases hstep : isRetryFailure (A a) = true ∧ fuel' ≠ 0
    · rw [callback_loop_retry_step A u hs b n a fuel' d hstep.1 hstep.2]
      exact ih (a + 1) (d * 2)
    · obtain ⟨r, hr, hne⟩ :=
        callback_loop_terminal A u hs b n a fuel' d (retry_or_terminal hstep)
      rw [hr]
      simpa using hne

theorem callback_loop_postCount_le (A : Nat → AttemptOutcome) (u : List Char)
    (hs : List (String × String)) (b : List Nat) (n : Nat) :
    ∀ fuel a d, postCount (callback_loop A u hs b n a fuel d).snd ≤ fuel := by
  intro fuel
  induction fuel with
  | zero => intro a d; simp [callback_loop, postCount]
  | succ fuel' ih =>
    intro a d
    by_cases hstep : isRetryFailure (A a) = true ∧ fuel' ≠ 0
    · rw [callback_loop_retry_step A u hs b n a fuel' d hstep.1 hstep.2]
      have := ih (a + 1) (d * 2)
      simp only [postCount] at *
      simp [List.countP_cons, isPost]
      omega
    · obtain ⟨r, hr, -⟩ :=
        callback_loop_terminal A u hs b n a fuel' d (retry_or_terminal hstep)
      rw [hr]
      simp [postCount, List.countP_cons, isPost]

theorem callback_loop_postCount_pos (A : Nat → AttemptOutcome) (u : List Char)
    (hs : List (String × String)) (b : List Nat) (n : Nat) :
    ∀ fuel a d, fuel ≠ 0 →
      1 ≤ postCount (callback_loop A u hs b n a fuel d).snd := by
  intro fuel a d hf
  obtain ⟨fuel', rfl⟩ : ∃ k, fuel = k + 1 := ⟨fuel - 1, by omega⟩
  by_cases hstep : isRetryFailure (A a) = true ∧ fuel' ≠ 0
  · rw [callback_loop_retry_step A u hs b n a fuel' d hstep.1 hstep.2]
    simp [postCount, List.countP_cons, isPost]
  · obtain ⟨r, hr, -⟩ :=
      callback_loop_terminal A u hs b n a fuel' d (retry_or_terminal hstep)
    rw [hr]
    simp [postCount, List.countP_cons, isPost]

theorem callback_loop_backoffs (A : Nat → AttemptOutcome) (u : List Char)
    (hs : List (String × String)) (b : List Nat) (n : Nat) :
    ∀ fuel a d, backoffs (callback_loop A u hs b n a fuel d).snd =
      (List.range (postCount (callback_loop A u hs b n a fuel d).snd - 1)).map
        (fun i => d * 2 ^ i) := by
  intro fuel
  induction fuel with
  | zero => intro a d; simp [callback_loop, backoffs, postCount]
  | succ fuel' ih =>
    intro a d
    by_cases hstep : isRetryFailure (A a) = true ∧ fuel' ≠ 0
    · rw [callback_loop_retry_step A u hs b n a fuel' d hstep.1 hstep.2]
      have hpos := callback_loop_postCount_pos A u hs b n fuel' (a + 1) (d * 2) hstep.2
      obtain ⟨k, hk⟩ :
          ∃ k, postCount (callback_loop A u hs b n (a + 1) fuel' (d * 2)).snd = k + 1 :=
        ⟨postCount (callback_loop A u hs b n (a + 1) fuel' (d * 2)).snd - 1, by omega⟩
      have hcount : postCount (Event.post u hs b 300 :: Event.backoffSleep d ::
          (callback_loop A u hs b n (a + 1) fuel' (d * 2)).snd) =
          postCount (callback_loop A u hs b n (a + 1) fuel' (d * 2)).snd + 1 := by
        simp [postCount, List.countP_cons, isPost]
      have hbk : backoffs (Event.post u hs b 300 :: Event.backoffSleep d ::
          (callback_loop A u hs b n (a + 1) fuel' (d * 2)).snd) =
          d :: backoffs (callback_loop A u hs b n (a + 1) fuel' (d * 2)).snd := by
        simp [backoffs]
      have hIH := ih (a + 1) (d * 2)
      rw [hk, show k + 1 - 1 = k from rfl] at hIH
      rw [hbk, hcount, hk, show k + 1 + 1 - 1 = k + 1 from rfl, hIH,
        List.range_succ_eq_map]
      simp only [List.map_cons, List.map_map]
      refine List.cons_eq_cons.mpr ⟨by simp, ?_⟩
      congr 1
      funext i
      simp [Function.comp, Nat.succ_eq_add_one, pow_succ]
      ring
    · obtain ⟨r, hr, -⟩ :=
        callback_loop_terminal A u hs b n a fuel' d (retry_or_terminal hstep)
      rw [hr]
      simp [backoffs, postCount, isPost]

/-- Immediate termination: a 200 response ends the loop after one POST with
no backoff sleep. -/
theorem callback_loop_success (A : Nat → AttemptOutcome) (u : List Char)
    (hs : List (String × String)) (b : List Nat) (n a fuel' d : Nat)
    (hA : A a = AttemptOutcome.response 200) :
    callback_loop A u hs b n a (fuel' + 1) d =
      (some ⟨200, "SUCCESS: File scanned and forwarded (" ++ toString n
            ++ " bytes)", "text/plain"⟩, [Event.post u hs b 300]) := by
  simp [callback_loop, hA]

/-! ### Path characterizations of `scan_file` -/

theorem scan_file_clean (o : Oracle) (req : ScanRequest) (u : List Char)
    (hf : o.topLevelFault = none) (hu : req.targetUrl = some u) (hne : u ≠ [])
    (hp : (test_callback_connectivity o.connect u).fst = true)
    (hr : req.readError = none) (hb : req.body ≠ [])
    (hv : ¬(o.verdictDraw < mkRat 1 100)) :
    scan_file o req =
      ((callback_loop o.attempt u (request_callback_headers req) req.body
          req.body.length 0 max_retries 1).fst,
       (test_callback_connectivity o.connect u).snd ++
         [Event.readBody, Event.scanSleep o.scanDelay, Event.draw o.verdictDraw] ++
         (callback_loop o.attempt u (request_callback_headers req) req.body
           req.body.length 0 max_retries 1).snd) := by
  have hbe : req.body.isEmpty = false := by
    cases hl : req.body with
    | nil => exact absurd hl hb
    | cons x xs => rfl
  simp [scan_file, request_callback_headers, hf, hu, hne, hp, hr, hbe, hv]

theorem scan_file_infected (o : Oracle) (req : ScanRequest) (u : List Char)
    (hf : o.topLevelFault = none) (hu : req.targetUrl = some u) (hne : u ≠ [])
    (hp : (test_callback_connectivity o.connect u).fst = true)
    (hr : req.readError = none) (hb : req.body ≠ [])
    (hv : o.verdictDraw < mkRat 1 100) :
    scan_file o req =
      (some infectedResponse,
       (test_callback_connectivity o.connect u).snd ++
         [Event.readBody, Event.scanSleep o.scanDelay, Event.draw o.verdictDraw]) := by
  have hbe : req.body.isEmpty = false := by
    cases hl : req.body with
    | nil => exact absurd hl hb
    | cons x xs => rfl
  simp [scan_file, infectedResponse, hf, hu, hne, hp, hr, hbe, hv]

theorem scan_file_probe_fail (o : Oracle) (req : ScanRequest) (u : List Char)
    (hf : o.topLevelFault = none) (hu : req.targetUrl = some u) (hne : u ≠ [])
    (hp : (test_callback_connectivity o.connect u).fst = false) :
    scan_file o req =
      (some ⟨500, "Cannot reach callback URL - check network configuration",
             "text/plain"⟩,
       (test_callback_connectivity o.connect u).snd) := by
  simp [scan_file, hf, hu, hne, hp]

theorem connectivity_no_post (c : List Char → Int → SockResult) (u : List Char) :
    ∀ url hs b t, Event.post url hs b t ∉ (test_callback_connectivity c u).snd := by
  intro url hs b t hmem
  obtain ⟨h, p, -, he⟩ := connectivity_snd_events c u _ hmem
  simp at he

theorem connectivity_postCount (c : List Char → Int → SockResult) (u : List Char) :
    postCount (test_callback_connectivity c u).snd = 0 := by
  rw [postCount, List.countP_eq_zero]
  intro e he
  obtain ⟨h, p, -, rfl⟩ := connectivity_snd_events c u e he
  simp [isPost]

theorem connectivity_backoffs (c : List Char → Int → SockResult) (u : List Char) :
    backoffs (test_callback_connectivity c u).snd = [] := by
  rw [backoffs, List.filterMap_eq_nil_iff]
  intro e he
  obtain ⟨h, p, -, rfl⟩ := connectivity_snd_events c u e he
  rfl

/-! ### Claim theorems -/

/-- C6: a request without the `targetUrl` header (in a run with no injected
fault) is answered 400 with the fixed body `Missing targetUrl header`; the
payload is never read and no outbound POST occurs. -/
theorem C6_missing_targetUrl (o : Oracle) (req : ScanRequest)
    (hf : o.topLevelFault = none) (hu : req.targetUrl = none) :
    scan_file o req = (some ⟨400, "Missing targetUrl header", "text/plain"⟩, []) ∧
    Event.readBody ∉ (scan_file o req).snd ∧
    ∀ url hs b t, Event.post url hs b t ∉ (scan_file o req).snd := by
  have h : scan_file o req =
      (some ⟨400, "Missing targetUrl header", "text/plain"⟩, []) := by
    simp [scan_file, hf, hu]
  refine ⟨h, ?_, ?_⟩
  · rw [h]; simp
  · intro url hs b t; rw [h]; simp

/-- C6 witness at `noTargetRequest` with `okOracle`. -/
theorem C6_missing_targetUrl_witness :
    okOracle.topLevelFault = none ∧ noTargetRequest.targetUrl = none ∧
    (scan_file okOracle noTargetRequest =
      (some ⟨400, "Missing targetUrl header", "text/plain"⟩, []) ∧
     Event.readBody ∉ (scan_file okOracle noTargetRequest).snd ∧
     ∀ url hs b t, Event.post url hs b t ∉ (scan_file okOracle noTargetRequest).snd) :=
  ⟨rfl, rfl, C6_missing_targetUrl okOracle noTargetRequest rfl rfl⟩

/-- C8: a request whose verdict draw classifies it as infected is answered
200 with the infection body, and no outbound POST occurs. -/
theorem C8_infected_no_callback (o : Oracle) (req : ScanRequest) (u : List Char)
    (hf : o.topLevelFault = none) (hu : req.targetUrl = some u) (hne : u ≠ [])
    (hp : (test_callback_connectivity o.connect u).fst = true)
    (hr : req.readError = none) (hb : req.body ≠ [])
    (hv : o.verdictDraw < mkRat 1 100) :
    scan_file o req =
      (some ⟨200, "INFECTED: Simulated virus detected", "text/plain"⟩,
       (test_callback_connectivity o.connect u).snd ++
         [Event.readBody, Event.scanSleep o.scanDelay, Event.draw o.verdictDraw]) ∧
    ∀ url hs b t, Event.post url hs b t ∉ (scan_file o req).snd := by
  have h := scan_file_infected o req u hf hu hne hp hr hb hv
  refine ⟨by simpa [infectedResponse] using h, ?_⟩
  intro url hs b t hmem
  rw [h] at hmem
  simp only [List.mem_append] at hmem
  rcases hmem with hmem | hmem
  · exact connectivity_no_post o.connect u url hs b t hmem
  · simp at hmem

/-- C8 witness at `demoRequest` with `infectedOracle` (draw 0 < 0.01). -/
theorem C8_infected_no_callback_witness :
    infectedOracle.topLevelFault = none ∧
    demoRequest.targetUrl = some demoUrl ∧ demoUrl ≠ [] ∧
    (test_callback_connectivity infectedOracle.connect demoUrl).fst = true ∧
    demoRequest.readError = none ∧ demoRequest.body ≠ [] ∧
    infectedOracle.verdictDraw < mkRat 1 100 ∧
    (scan_file infectedOracle demoRequest =
      (some ⟨200, "INFECTED: Simulated virus detected", "text/plain"⟩,
       (test_callback_connectivity infectedOracle.connect demoUrl).snd ++
         [Event.readBody, Event.scanSleep infectedOracle.scanDelay,
          Event.draw infectedOracle.verdictDraw]) ∧
     ∀ url hs b t, Event.post url hs b t ∉ (scan_file infectedOracle demoRequest).snd) :=
  ⟨rfl, rfl, by decide, by decide, rfl, by decide, by decide,
   C8_infected_no_callback infectedOracle demoRequest demoUrl rfl rfl
     (by decide) (by decide) rfl (by decide) (by decide)⟩

/-- C5: with `targetUrl` present, the handler probes TCP connectivity (socket
timeout 5 seconds, host and port parsed from the URL) before reading the
payload; if the probe fails (including an unparseable URL, which yields a
failed probe with no socket call), it responds 500 with the fixed body and
neither reads the payload, draws a verdict, nor performs any POST or backoff
sleep. -/
theorem C5_connectivity_gate (o : Oracle) (req : ScanRequest) (u : List Char)
    (hf : o.topLevelFault = none) (hu : req.targetUrl = some u) (hne : u ≠ [])
    (hp : (test_callback_connectivity o.connect u).fst = false) :
    scan_file o req =
      (some ⟨500, "Cannot reach callback URL - check network configuration",
             "text/plain"⟩,
       (test_callback_connectivity o.connect u).snd) ∧
    (∀ h p t, Event.sockProbe h p t ∈ (test_callback_connectivity o.connect u).snd →
      parseHostPort u = some (h, p) ∧ t = 5) ∧
    (parseHostPort u = none → test_callback_connectivity o.connect u = (false, [])) ∧
    Event.readBody ∉ (scan_file o req).snd ∧
    (∀ r, Event.draw r ∉ (scan_file o req).snd) ∧
    (∀ url hs b t, Event.post url hs b t ∉ (scan_file o req).snd) ∧
    (∀ d, Event.backoffSleep d ∉ (scan_file o req).snd) := by
  have h := scan_file_probe_fail o req u hf hu hne hp
  refine ⟨h, ?_, connectivity_parse_none o.connect u, ?_, ?_, ?_, ?_⟩
  · intro hh pp tt hm
    obtain ⟨h', p', hpu, he⟩ := connectivity_snd_events o.connect u _ hm
    simp only [Event.sockProbe.injEq] at he
    obtain ⟨rfl, rfl, rfl⟩ := he
    exact ⟨hpu, rfl⟩
  · intro hm
    rw [h] at hm
    obtain ⟨h', p', -, he⟩ := connectivity_snd_events o.connect u _ hm
    simp at he
  · intro r hm
    rw [h] at hm
    obtain ⟨h', p', -, he⟩ := connectivity_snd_events o.connect u _ hm
    simp at he
  · intro url hs b t hm
    rw [h] at hm
    exact connectivity_no_post o.connect u url hs b t hm
  · intro d hm
    rw [h] at hm
    obtain ⟨h', p', -, he⟩ := connectivity_snd_events o.connect u _ hm
    simp at he

/-- C5 witness at `demoRequest` with `probeFailOracle` (connect_ex = 111). -/
theorem C5_connectivity_gate_witness :
    probeFailOracle.topLevelFault = none ∧
    demoRequest.targetUrl = some demoUrl ∧ demoUrl ≠ [] ∧
    (test_callback_connectivity probeFailOracle.connect demoUrl).fst = false ∧
    (scan_file probeFailOracle demoRequest =
      (some ⟨500, "Cannot reach callback URL - check network configuration",
             "text/plain"⟩,
       (test_callback_connectivity probeFailOracle.connect demoUrl).snd) ∧
     (∀ h p t,
        Event.sockProbe h p t ∈ (test_callback_connectivity probeFailOracle.connect demoUrl).snd →
        parseHostPort demoUrl = some (h, p) ∧ t = 5) ∧
     (parseHostPort demoUrl = none →
        test_callback_connectivity probeFailOracle.connect demoUrl = (false, [])) ∧
     Event.readBody ∉ (scan_file probeFailOracle demoRequest).snd ∧
     (∀ r, Event.draw r ∉ (scan_file probeFailOracle demoRequest).snd) ∧
     (∀ url hs b t, Event.post url hs b t ∉ (scan_file probeFailOracle demoRequest).snd) ∧
     (∀ d, Event.backoffSleep d ∉ (scan_file probeFailOracle demoRequest).snd)) :=
  ⟨rfl, rfl, by decide, by decide,
   C5_connectivity_gate probeFailOracle demoRequest demoUrl rfl rfl
     (by decide) (by decide)⟩

/-- C10: the verdict is blind to payload content: with the same oracle, the
infected branch is taken exactly when the verdict draw falls below 0.01, for
any payload; two requests differing (in particular) only in their payload
bytes receive the same clean/infected verdict. -/
theorem C10_content_blind (o : Oracle) (req1 req2 : ScanRequest) (u : List Char)
    (hf : o.topLevelFault = none)
    (hu1 : req1.targetUrl = some u) (hu2 : req2.targetUrl = some u) (hne : u ≠ [])
    (hp : (test_callback_connectivity o.connect u).fst = true)
    (hr1 : req1.readError = none) (hr2 : req2.readError = none)
    (hb1 : req1.body ≠ []) (hb2 : req2.body ≠ []) :
    ((scan_file o req1).fst = some infectedResponse ↔ o.verdictDraw < mkRat 1 100) ∧
    ((scan_file o req1).fst = some infectedResponse ↔
      (scan_file o req2).fst = some infectedResponse) := by
  have key : ∀ req : ScanRequest, req.targetUrl = some u → req.readError = none →
      req.body ≠ [] →
      ((scan_file o req).fst = some infectedResponse ↔
        o.verdictDraw < mkRat 1 100) := by
    intro req hu hr hb
    constructor
    · intro hresp
      by_contra hv
      have h := scan_file_clean o req u hf hu hne hp hr hb hv
      rw [h] at hresp
      exact callback_loop_ne_infected o.attempt u (request_callback_headers req)
        req.body req.body.length max_retries 0 1 hresp
    · intro hv
      rw [scan_file_infected o req u hf hu hne hp hr hb hv]
  exact ⟨key req1 hu1 hr1 hb1,
    (key req1 hu1 hr1 hb1).trans (key req2 hu2 hr2 hb2).symm⟩

/-- C10 witness: `demoRequest` and `otherBodyRequest` (same headers,
different payloads) under `okOracle`. -/
theorem C10_content_blind_witness :
    okOracle.topLevelFault = none ∧
    demoRequest.targetUrl = some demoUrl ∧
    otherBodyRequest.targetUrl = some demoUrl ∧ demoUrl ≠ [] ∧
    (test_callback_connectivity okOracle.connect demoUrl).fst = true ∧
    demoRequest.readError = none ∧ otherBodyRequest.readError = none ∧
    demoRequest.body ≠ [] ∧ otherBodyRequest.body ≠ [] ∧
    (((scan_file okOracle demoRequest).fst = some infectedResponse ↔
        okOracle.verdictDraw < mkRat 1 100) ∧
     ((scan_file okOracle demoRequest).fst = some infectedResponse ↔
        (scan_file okOracle otherBodyRequest).fst = some infectedResponse)) :=
  ⟨rfl, rfl, rfl, by decide, by decide, rfl, rfl, by decide, by decide,
   C10_content_blind okOracle demoRequest otherBodyRequest demoUrl rfl rfl rfl
     (by decide) (by decide) rfl rfl (by decide) (by decide)⟩

/-- C2: on the clean path with a first-attempt 200, the handler performs one
POST to `targetUrl` whose body is exactly the inbound payload with the
specified headers (fixed content type, CLEAN verdict, exact byte count, and
the pass-through values with their defaults), and responds 200. -/
theorem C2_callback_contents (o : Oracle) (req : ScanRequest) (u : List Char)
    (hf : o.topLevelFault = none) (hu : req.targetUrl = some u) (hne : u ≠ [])
    (hp : (test_callback_connectivity o.connect u).fst = true)
    (hr : req.readError = none) (hb : req.body ≠ [])
    (hv : ¬(o.verdictDraw < mkRat 1 100))
    (h0 : o.attempt 0 = AttemptOutcome.response 200) :
    scan_file o req =
      (some ⟨200, "SUCCESS: File scanned and forwarded ("
            ++ toString req.body.length ++ " bytes)", "text/plain"⟩,
       (test_callback_connectivity o.connect u).snd ++
         [Event.readBody, Event.scanSleep o.scanDelay, Event.draw o.verdictDraw,
          Event.post u (request_callback_headers req) req.body 300]) ∧
    ("Content-Type", "application/octet-stream") ∈ request_callback_headers req ∧
    ("scan-result", "CLEAN") ∈ request_callback_headers req ∧
    ("Content-Length", toString req.body.length) ∈ request_callback_headers req ∧
    ("scan-reference-id", req.scanReferenceId.getD "") ∈ request_callback_headers req ∧
    ("original-filename", req.originalFilename.getD "unknown") ∈
      request_callback_headers req ∧
    ("original-content-type", req.originalContentType.getD "application/octet-stream")
      ∈ request_callback_headers req := by
  have h := scan_file_clean o req u hf hu hne hp hr hb hv
  rw [show max_retries = 2 + 1 from rfl,
    callback_loop_success o.attempt u (request_callback_headers req) req.body
      req.body.length 0 2 1 h0] at h
  refine ⟨by simpa using h, ?_, ?_, ?_, ?_, ?_, ?_⟩ <;>
    simp [request_callback_headers, callback_headers]

/-- C2 witness at `demoRequest` (payload `hello`, 5 bytes) with `okOracle`. -/
theorem C2_callback_contents_witness :
    okOracle.topLevelFault = none ∧
    demoRequest.targetUrl = some demoUrl ∧ demoUrl ≠ [] ∧
    (test_callback_connectivity okOracle.connect demoUrl).fst = true ∧
    demoRequest.readError = none ∧ demoRequest.body ≠ [] ∧
    ¬(okOracle.verdictDraw < mkRat 1 100) ∧
    okOracle.attempt 0 = AttemptOutcome.response 200 ∧
    (scan_file okOracle demoRequest =
      (some ⟨200, "SUCCESS: File scanned and forwarded ("
            ++ toString demoRequest.body.length ++ " bytes)", "text/plain"⟩,
       (test_callback_connectivity okOracle.connect demoUrl).snd ++
         [Event.readBody, Event.scanSleep okOracle.scanDelay,
          Event.draw okOracle.verdictDraw,
          Event.post demoUrl (request_callback_headers demoRequest)
            demoRequest.body 300]) ∧
     ("Content-Type", "application/octet-stream") ∈ request_callback_headers demoRequest ∧
     ("scan-result", "CLEAN") ∈ request_callback_headers demoRequest ∧
     ("Content-Length", toString demoRequest.body.length) ∈
       request_callback_headers demoRequest ∧
     ("scan-reference-id", demoRequest.scanReferenceId.getD "") ∈
       request_callback_headers demoRequest ∧
     ("original-filename", demoRequest.originalFilename.getD "unknown") ∈
       request_callback_headers demoRequest ∧
     ("original-content-type", demoRequest.originalContentType.getD "application/octet-stream")
       ∈ request_callback_headers demoRequest) :=
  ⟨rfl, rfl, by decide, by decide, rfl, by decide, by decide, rfl,
   C2_callback_contents okOracle demoRequest demoUrl rfl rfl (by decide)
     (by decide) rfl (by decide) (by decide) rfl⟩

/-- C7: when the handler reaches the body read (targetUrl present, probe
passed) and the read raises or yields an empty payload, the response is 400
and no outbound POST occurs. -/
theorem C7_empty_or_unreadable (o : Oracle) (req : ScanRequest) (u : List Char)
    (hf : o.topLevelFault = none) (hu : req.targetUrl = some u) (hne : u ≠ [])
    (hp : (test_callback_connectivity o.connect u).fst = true)
    (hbad : req.readError ≠ none ∨ req.body = []) :
    ∃ resp, scan_file o req =
        (some resp, (test_callback_connectivity o.connect u).snd ++ [Event.readBody]) ∧
      resp.status = 400 ∧
      ∀ url hs b t, Event.post url hs b t ∉ (scan_file o req).snd := by
  have noPost : ∀ url hs b t, Event.post url hs b t ∉
      (test_callback_connectivity o.connect u).snd ++ [Event.readBody] := by
    intro url hs b t hm
    rcases List.mem_append.mp hm with hm | hm
    · exact connectivity_no_post o.connect u url hs b t hm
    · simp at hm
  match hre : req.readError with
  | some e =>
    have h : scan_file o req =
        (some ⟨400, "Error reading request body: " ++ e, "text/plain"⟩,
         (test_callback_connectivity o.connect u).snd ++ [Event.readBody]) := by
      simp [scan_file, hf, hu, hne, hp, hre]
    exact ⟨_, h, rfl, by rw [h]; exact noPost⟩
  | none =>
    have hbody : req.body = [] := by
      rcases hbad with hh | hh
      · exact absurd hre hh
      · exact hh
    have h : scan_file o req =
        (some ⟨400, "No file content received", "text/plain"⟩,
         (test_callback_connectivity o.connect u).snd ++ [Event.readBody]) := by
      simp [scan_file, hf, hu, hne, hp, hre, hbody]
    exact ⟨_, h, rfl, by rw [h]; exact noPost⟩

/-- C7 witness at `emptyBodyRequest` with `okOracle`. -/
theorem C7_empty_or_unreadable_witness :
    okOracle.topLevelFault = none ∧
    emptyBodyRequest.targetUrl = some demoUrl ∧ demoUrl ≠ [] ∧
    (test_callback_connectivity okOracle.connect demoUrl).fst = true ∧
    (emptyBodyRequest.readError ≠ none ∨ emptyBodyRequest.body = []) ∧
    ∃ resp, scan_file okOracle emptyBodyRequest =
        (some resp,
         (test_callback_connectivity okOracle.connect demoUrl).snd ++ [Event.readBody]) ∧
      resp.status = 400 ∧
      ∀ url hs b t, Event.post url hs b t ∉ (scan_file okOracle emptyBodyRequest).snd :=
  ⟨rfl, rfl, by decide, by decide, Or.inr rfl,
   C7_empty_or_unreadable okOracle emptyBodyRequest demoUrl rfl rfl (by decide)
     (by decide) (Or.inr rfl)⟩

/-- C9: the handler always produces a response (nothing propagates to the
transport layer), and an unexpected exception not mapped elsewhere is
converted at the top level into a 500 response carrying its string
representation. -/
theorem C9_top_level_catch (o : Oracle) (req : ScanRequest) :
    (∃ resp, (scan_file o req).fst = some resp) ∧
    (∀ m, o.topLevelFault = some (PyExn.other m) →
      scan_file o req = (some ⟨500, "Internal server error: " ++ m, "text/plain"⟩, [])) := by
  constructor
  · suffices h : ((scan_file o req).fst).isSome = true from
      Option.isSome_iff_exists.mp h
    match hf : o.topLevelFault with
    | some (PyExn.badRequest m) => simp [scan_file, hf]
    | some (PyExn.other m) => simp [scan_file, hf]
    | none =>
      match hu : req.targetUrl with
      | none => simp [scan_file, hf, hu]
      | some u =>
        by_cases hne : u = []
        · simp [scan_file, hf, hu, hne]
        · cases hpf : (test_callback_connectivity o.connect u).fst with
          | false => rw [scan_file_probe_fail o req u hf hu hne hpf]; rfl
          | true =>
            match hre : req.readError with
            | some e => simp [scan_file, hf, hu, hne, hpf, hre]
            | none =>
              cases hbe : req.body.isEmpty with
              | true => simp [scan_file, hf, hu, hne, hpf, hre, hbe]
              | false =>
                by_cases hv : o.verdictDraw < mkRat 1 100
                · have hb : req.body ≠ [] := by
                    intro hnil; rw [hnil] at hbe; simp at hbe
                  rw [scan_file_infected o req u hf hu hne hpf hre hb hv]
                  rfl
                · have hb : req.body ≠ [] := by
                    intro hnil; rw [hnil] at hbe; simp at hbe
                  rw [scan_file_clean o req u hf hu hne hpf hre hb hv]
                  exact callback_loop_isSome o.attempt u
                    (request_callback_headers req) req.body req.body.length
                    max_retries 0 1 (by decide)
  · intro m hm
    simp [scan_file, hm]

/-- C9 witness at `demoRequest` with `faultyOracle` (injected exception
`boom`). -/
theorem C9_top_level_catch_witness :
    faultyOracle.topLevelFault = some (PyExn.other "boom") ∧
    (∃ resp, (scan_file faultyOracle demoRequest).fst = some resp) ∧
    scan_file faultyOracle demoRequest =
      (some ⟨500, "Internal server error: " ++ "boom", "text/plain"⟩, []) :=
  ⟨rfl, (C9_top_level_catch faultyOracle demoRequest).1,
   (C9_top_level_catch faultyOracle demoRequest).2 "boom" rfl⟩

/-- C1: on the clean path the callback loop performs at most 3 POSTs, each
with timeout 300; the backoff sleeps are exactly `2 ^ i` seconds (1, then 2)
between consecutive attempts; and if the first k attempts fail with a
retryable failure and attempt k (k < 3) returns 200, the loop stops right
there with exactly k + 1 POSTs and the handler responds 200. -/
theorem C1_retry_policy (o : Oracle) (req : ScanRequest) (u : List Char)
    (hf : o.topLevelFault = none) (hu : req.targetUrl = some u) (hne : u ≠ [])
    (hp : (test_callback_connectivity o.connect u).fst = true)
    (hr : req.readError = none) (hb : req.body ≠ [])
    (hv : ¬(o.verdictDraw < mkRat 1 100)) :
    postCount (scan_file o req).snd ≤ 3 ∧
    (∀ url hs b t, Event.post url hs b t ∈ (scan_file o req).snd → t = 300) ∧
    (backoffs (scan_file o req).snd =
      (List.range (postCount (scan_file o req).snd - 1)).map (fun i => 2 ^ i)) ∧
    (∀ k, k < 3 → (∀ j, j < k → isRetryFailure (o.attempt j) = true) →
      o.attempt k = AttemptOutcome.response 200 →
      postCount (scan_file o req).snd = k + 1 ∧
      (scan_file o req).fst = some ⟨200, "SUCCESS: File scanned and forwarded ("
        ++ toString req.body.length ++ " bytes)", "text/plain"⟩) := by
  have h := scan_file_clean o req u hf hu hne hp hr hb hv
  have hc : postCount (scan_file o req).snd =
      postCount (callback_loop o.attempt u (request_callback_headers req)
        req.body req.body.length 0 max_retries 1).snd := by
    rw [h]
    have h0 := connectivity_postCount o.connect u
    simp only [postCount] at h0 ⊢
    simp [List.countP_append, List.countP_cons, isPost, h0]
  have hbk : backoffs (scan_file o req).snd =
      backoffs (callback_loop o.attempt u (request_callback_headers req)
        req.body req.body.length 0 max_retries 1).snd := by
    rw [h]
    have h0 := connectivity_backoffs o.connect u
    simp only [backoffs] at h0 ⊢
    simp [List.filterMap_append, h0]
  refine ⟨?_, ?_, ?_, ?_⟩
  · rw [hc]
    exact callback_loop_postCount_le o.attempt u (request_callback_headers req)
      req.body req.body.length max_retries 0 1
  · intro url hs b t hm
    rw [h] at hm
    rcases List.mem_append.mp hm with hm | hm
    · rcases List.mem_append.mp hm with hm | hm
      · exact absurd hm (connectivity_no_post o.connect u url hs b t)
      · simp at hm
    · rcases callback_loop_snd_events o.attempt u (request_callback_headers req)
        req.body req.body.length max_retries 0 1 _ hm with he | ⟨dd, he⟩
      · simp only [Event.post.injEq] at he
        exact he.2.2.2
      · simp at he
  · rw [hbk, hc, callback_loop_backoffs]
    simp [one_mul]
  · intro k hk hfail h200
    interval_cases k
    · have hL := callback_loop_success o.attempt u (request_callback_headers req)
        req.body req.body.length 0 2 1 h200
      constructor
      · rw [hc, show max_retries = 2 + 1 from rfl, hL]
        simp [postCount, isPost]
      · rw [h, show max_retries = 2 + 1 from rfl, hL]
    · have hstep0 := callback_loop_retry_step o.attempt u (request_callback_headers req)
        req.body req.body.length 0 2 1 (hfail 0 (by omega)) (by decide)
      norm_num at hstep0
      have hL := callback_loop_success o.attempt u (request_callback_headers req)
        req.body req.body.length 1 1 2 h200
      norm_num at hL
      constructor
      · rw [hc, show max_retries = 3 from rfl, hstep0, hL]
        simp [postCount, List.countP_cons, isPost]
      · rw [h, show max_retries = 3 from rfl, hstep0, hL]
    · have hstep0 := callback_loop_retry_step o.attempt u (request_callback_headers req)
        req.body req.body.length 0 2 1 (hfail 0 (by omega)) (by decide)
      norm_num at hstep0
      have hstep1 := callback_loop_retry_step o.attempt u (request_callback_headers req)
        req.body req.body.length 1 1 2 (hfail 1 (by omega)) (by decide)
      norm_num at hstep1
      have hL := callback_loop_success o.attempt u (request_callback_headers req)
        req.body req.body.length 2 0 4 h200
      norm_num at hL
      constructor
      · rw [hc, show max_retries = 3 from rfl, hstep0, hstep1, hL]
        simp [postCount, List.countP_cons, isPost]
      · rw [h, show max_retries = 3 from rfl, hstep0, hstep1, hL]

/-- C1 witness at `demoRequest` with `thirdTimeLuckyOracle` (503, 503, 200). -/
theorem C1_retry_policy_witness :
    thirdTimeLuckyOracle.topLevelFault = none ∧
    demoRequest.targetUrl = some demoUrl ∧ demoUrl ≠ [] ∧
    (test_callback_connectivity thirdTimeLuckyOracle.connect demoUrl).fst = true ∧
    demoRequest.readError = none ∧ demoRequest.body ≠ [] ∧
    ¬(thirdTimeLuckyOracle.verdictDraw < mkRat 1 100) ∧
    (postCount (scan_file thirdTimeLuckyOracle demoRequest).snd ≤ 3 ∧
     (∀ url hs b t,
        Event.post url hs b t ∈ (scan_file thirdTimeLuckyOracle demoRequest).snd →
        t = 300) ∧
     (backoffs (scan_file thirdTimeLuckyOracle demoRequest).snd =
       (List.range (postCount (scan_file thirdTimeLuckyOracle demoRequest).snd - 1)).map
         (fun i => 2 ^ i)) ∧
     (∀ k, k < 3 →
       (∀ j, j < k → isRetryFailure (thirdTimeLuckyOracle.attempt j) = true) →
       thirdTimeLuckyOracle.attempt k = AttemptOutcome.response 200 →
       postCount (scan_file thirdTimeLuckyOracle demoRequest).snd = k + 1 ∧
       (scan_file thirdTimeLuckyOracle demoRequest).fst =
         some ⟨200, "SUCCESS: File scanned and forwarded ("
           ++ toString demoRequest.body.length ++ " bytes)", "text/plain"⟩)) :=
  ⟨rfl, rfl, by decide, by decide, rfl, by decide, by decide,
   C1_retry_policy thirdTimeLuckyOracle demoRequest demoUrl rfl rfl (by decide)
     (by decide) rfl (by decide) (by decide)⟩

/-- C3: on the clean path, when attempts 1 and 2 fail with retryable
failures, the response after the 3rd attempt is cause-specific: a non-200
status yields a 500 naming that status, a timeout yields the timeout body,
and a connection failure yields the connection body with the error detail. -/
theorem C3_exhausted_retries (o : Oracle) (req : ScanRequest) (u : List Char)
    (hf : o.topLevelFault = none) (hu : req.targetUrl = some u) (hne : u ≠ [])
    (hp : (test_callback_connectivity o.connect u).fst = true)
    (hr : req.readError = none) (hb : req.body ≠ [])
    (hv : ¬(o.verdictDraw < mkRat 1 100))
    (h0 : isRetryFailure (o.attempt 0) = true)
    (h1 : isRetryFailure (o.attempt 1) = true) :
    (∀ st, o.attempt 2 = AttemptOutcome.response st → st ≠ 200 →
      (scan_file o req).fst = some ⟨500, "Callback failed after "
        ++ toString max_retries ++ " attempts: HTTP " ++ toString st,
        "text/plain"⟩) ∧
    (o.attempt 2 = AttemptOutcome.timeout →
      (scan_file o req).fst =
        some ⟨500, "Callback timeout after retries", "text/plain"⟩) ∧
    (∀ dd, o.attempt 2 = AttemptOutcome.connError dd →
      (scan_file o req).fst = some ⟨500, "Callback connection error after retries: "
        ++ dd, "text/plain"⟩) := by
  have h := scan_file_clean o req u hf hu hne hp hr hb hv
  have hstep0 := callback_loop_retry_step o.attempt u (request_callback_headers req)
    req.body req.body.length 0 2 1 h0 (by decide)
  norm_num at hstep0
  have hstep1 := callback_loop_retry_step o.attempt u (request_callback_headers req)
    req.body req.body.length 1 1 2 h1 (by decide)
  norm_num at hstep1
  have hfst : (scan_file o req).fst =
      (callback_loop o.attempt u (request_callback_headers req) req.body
        req.body.length 2 1 4).fst := by
    rw [h, show max_retries = 3 from rfl, hstep0, hstep1]
  refine ⟨?_, ?_, ?_⟩
  · intro st hA h200
    rw [hfst]
    simp [callback_loop, hA, h200]
  · intro hA
    rw [hfst]
    simp [callback_loop, hA]
  · intro dd hA
    rw [hfst]
    simp [callback_loop, hA]

/-- C3 witness at `demoRequest` with `non200Oracle` (503 on all attempts). -/
theorem C3_exhausted_retries_witness :
    non200Oracle.topLevelFault = none ∧
    demoRequest.targetUrl = some demoUrl ∧ demoUrl ≠ [] ∧
    (test_callback_connectivity non200Oracle.connect demoUrl).fst = true ∧
    demoRequest.readError = none ∧ demoRequest.body ≠ [] ∧
    ¬(non200Oracle.verdictDraw < mkRat 1 100) ∧
    isRetryFailure (non200Oracle.attempt 0) = true ∧
    isRetryFailure (non200Oracle.attempt 1) = true ∧
    non200Oracle.attempt 2 = AttemptOutcome.response 503 ∧ 503 ≠ 200 ∧
    (scan_file non200Oracle demoRequest).fst =
      some ⟨500, "Callback failed after " ++ toString max_retries
        ++ " attempts: HTTP " ++ toString 503, "text/plain"⟩ :=
  ⟨rfl, rfl, by decide, by decide, rfl, by decide, by decide, by decide,
   by decide, rfl, by decide,
   (C3_exhausted_retries non200Oracle demoRequest demoUrl rfl rfl (by decide)
     (by decide) rfl (by decide) (by decide) (by decide) (by decide)).1
     503 rfl (by decide)⟩

/-- C4 as stated is false on the code: at `demoRequest` (with `targetUrl`
present, so validation passes) under `probeFailOracle`, the handler decides
the delivery outcome — a 500 `Cannot reach callback URL` response — without
ever reading the payload: reading is not the first step after validation. -/
theorem C4_counterexample :
    demoRequest.targetUrl = some demoUrl ∧ demoUrl ≠ [] ∧
    scan_file probeFailOracle demoRequest =
      (some ⟨500, "Cannot reach callback URL - check network configuration",
             "text/plain"⟩,
       [Event.sockProbe "h".data 1 5]) ∧
    Event.readBody ∉ (scan_file probeFailOracle demoRequest).snd :=
  ⟨rfl, by decide, by decide, by decide⟩

/-- C4 (amended): after targetUrl validation the handler first probes
connectivity (possibly aborting with 500 before any read); when the probe
passes, the trace is exactly probe events, then the full-payload read, then
the scan delay, then the verdict draw, then (only if clean) POST and backoff
events — so no delivery attempt precedes the full read. -/
theorem C4_order_amended (o : Oracle) (req : ScanRequest) (u : List Char)
    (hf : o.topLevelFault = none) (hu : req.targetUrl = some u) (hne : u ≠ [])
    (hp : (test_callback_connectivity o.connect u).fst = true)
    (hr : req.readError = none) (hb : req.body ≠ []) :
    ∃ rest, (scan_file o req).snd =
      (test_callback_connectivity o.connect u).snd ++
        [Event.readBody, Event.scanSleep o.scanDelay, Event.draw o.verdictDraw]
        ++ rest ∧
      (∀ e ∈ (test_callback_connectivity o.connect u).snd,
        ∃ h p, e = Event.sockProbe h p 5) ∧
      (∀ e ∈ rest, e = Event.post u (request_callback_headers req) req.body 300 ∨
        ∃ dd, e = Event.backoffSleep dd) ∧
      (o.verdictDraw < mkRat 1 100 → rest = []) := by
  have hprobe : ∀ e ∈ (test_callback_connectivity o.connect u).snd,
      ∃ hh pp, e = Event.sockProbe hh pp 5 := by
    intro e he
    obtain ⟨hh, pp, -, rfl⟩ := connectivity_snd_events o.connect u e he
    exact ⟨hh, pp, rfl⟩
  by_cases hv : o.verdictDraw < mkRat 1 100
  · refine ⟨[], ?_, hprobe, by simp, fun _ => rfl⟩
    rw [scan_file_infected o req u hf hu hne hp hr hb hv]
    simp
  · refine ⟨(callback_loop o.attempt u (request_callback_headers req) req.body
        req.body.length 0 max_retries 1).snd, ?_, hprobe, ?_,
        fun hvv => absurd hvv hv⟩
    · rw [scan_file_clean o req u hf hu hne hp hr hb hv]
    · exact callback_loop_snd_events o.attempt u (request_callback_headers req)
        req.body req.body.length max_retries 0 1

/-- C4 amended-theorem witness at `demoRequest` with `okOracle`. -/
theorem C4_order_amended_witness :
    okOracle.topLevelFault = none ∧
    demoRequest.targetUrl = some demoUrl ∧ demoUrl ≠ [] ∧
    (test_callback_connectivity okOracle.connect demoUrl).fst = true ∧
    demoRequest.readError = none ∧ demoRequest.body ≠ [] ∧
    ∃ rest, (scan_file okOracle demoRequest).snd =
      (test_callback_connectivity okOracle.connect demoUrl).snd ++
        [Event.readBody, Event.scanSleep okOracle.scanDelay,
         Event.draw okOracle.verdictDraw] ++ rest ∧
      (∀ e ∈ (test_callback_connectivity okOracle.connect demoUrl).snd,
        ∃ h p, e = Event.sockProbe h p 5) ∧
      (∀ e ∈ rest,
        e = Event.post demoUrl (request_callback_headers demoRequest)
          demoRequest.body 300 ∨ ∃ dd, e = Event.backoffSleep dd) ∧
      (okOracle.verdictDraw < mkRat 1 100 → rest = []) :=
  ⟨rfl, rfl, by decide, by decide, rfl, by decide,
   C4_order_amended okOracle demoRequest demoUrl rfl rfl (by decide)
     (by decide) rfl (by decide)⟩

end AVScanMock
